import Mathlib

/-
Shallow embedding of the token-based security core of tyx-core
(BaseSecurity in security.ts: httpAuth, remoteAuth, eventAuth, verify,
renew, issueToken, secret, timeout), together with the data model it
operates on (Roles, PermissionMetadata, IssueRequest, AuthInfo, Context,
WebToken claims).

Modelling conventions:
- JavaScript `undefined`/`null` string values are `Option String` with
  `none`; the JavaScript falsiness of a string ("" is falsy) is captured
  by `jsTruthyS`.  Template interpolation of `undefined` prints the
  string "undefined" (`optStr`).  Object indexing with an undefined key
  reads the property named "undefined"; `optStr` also models that.
- Times are epoch milliseconds as `Int`; `Math.floor` division is
  `Int.fdiv`.  `Date.now()` is the `now` field of `Env`, constant within
  one call.
- Duration configuration values (strings for the `ms` library) are
  modelled as `Option Nat`: `none` is an unset or empty (falsy) value,
  `some n` a valid non-empty duration string worth `n` milliseconds, so
  `MS` is the identity on the carried value.
- A compact signed token (the output of `JWT.sign`) is `TokenStr.jwt c k`
  carrying its claim set `c` and the secret `k` it was signed with;
  `JWT.verify` succeeds exactly when the verification secret equals `k`
  (signature first, then not-before, then expiry, as jsonwebtoken does).
  `TokenStr.junk` is any other non-empty string that is not a compact
  JWS; `TokenStr.bearer t` is the string "Bearer" followed by `t`.
  ISO date rendering in error messages is abstracted to the decimal
  millisecond value.
- Crashes of the JavaScript runtime (TypeError on undefined, the `ms`
  library throwing on a non-string) are `Err.jsError`, distinct from the
  three application error classes BadRequest, Unauthorized, Forbidden.
- `new Date(string)` parsing is the environment function `parseDateMs`:
  `none` models an Invalid Date (NaN), whose comparisons are false.
-/

namespace TyxCore

/-- JavaScript truthiness of a possibly undefined string value. -/
def jsTruthyS (o : Option String) : Bool :=
  match o with
  | none => false
  | some s => !(s == "")

/-- Template-literal rendering of a possibly undefined string, also the
object-index key it denotes (`undefined` prints and indexes as the string
"undefined"). -/
def optStr (o : Option String) : String :=
  match o with
  | none => "undefined"
  | some s => s

/-- JavaScript s.startsWith(p), computed on the character list so that it
reduces during concrete evaluation. -/
def jsStartsWith (s p : String) : Bool := decide (s.data.take p.data.length = p.data)

/-- JavaScript `a || b` for a string `a` with default `b` (undefined and
the empty string fall through to `b`). -/
def jsOrStr (a : Option String) (b : String) : String :=
  match a with
  | none => b
  | some s => if s = "" then b else s

/-- Decoded claim set of a web token (interface WebToken); every claim is
optional because an arbitrary inbound token may omit any of them. -/
structure Claims where
  jti : Option String
  ist : Option Int
  iss : Option String
  aud : Option String
  sub : Option String
  iat : Option Int
  nbf : Option Int
  exp : Option Int
  oid : Option String
  email : Option String
  name : Option String
  ipaddr : Option String
  role : Option String
  scope : Option String
deriving DecidableEq, Repr

/-- A wire token value: absent (undefined/null), the empty string, a
"Bearer"-prefixed value, a compact JWT signed with a secret, or any other
non-empty undecodable string. -/
inductive TokenStr where
  | absent
  | empty
  | bearer (rest : TokenStr)
  | jwt (claims : Claims) (key : String)
  | junk (s : String)
deriving DecidableEq, Repr

/-- JavaScript truthiness of a token value. -/
def TokenStr.truthy (t : TokenStr) : Bool :=
  match t with
  | .absent => false
  | .empty => false
  | _ => true

/-- Step 1 of verify: strip a leading "Bearer" prefix when present
(`token.substring(6).trim()`). -/
def stripBearer (t : TokenStr) : TokenStr :=
  match t with
  | .bearer rest => rest
  | t => t

/-- Failures of JWT.verify, distinguished by message as jsonwebtoken
produces them. -/
inductive JwtErr where
  | notProvided
  | malformed
  | invalidSignature
  | notActive
  | expired (exp : Int)
deriving DecidableEq, Repr

/-- The message carried by a jsonwebtoken error. -/
def JwtErr.message (e : JwtErr) : String :=
  match e with
  | .notProvided => "jwt must be provided"
  | .malformed => "jwt malformed"
  | .invalidSignature => "invalid signature"
  | .notActive => "jwt not active"
  | .expired _ => "jwt expired"

/-- The error classes thrown by the security core.  `jsError` stands for
a raw JavaScript runtime error (TypeError and the like), which is none of
the three application classes. -/
inductive Err where
  | badRequest (msg : String)
  | unauthorized (msg : String)
  | forbidden (msg : String)
  | jsError (msg : String)
deriving DecidableEq, Repr

/-- The message of a thrown error, as read by a catch block. -/
def Err.message (e : Err) : String :=
  match e with
  | .badRequest m => m
  | .unauthorized m => m
  | .forbidden m => m
  | .jsError m => m

instance {ε α : Type} [DecidableEq ε] [DecidableEq α] : DecidableEq (Except ε α) :=
  fun x y =>
    match x, y with
    | .error a, .error b =>
      if h : a = b then .isTrue (congrArg Except.error h)
      else .isFalse (fun hh => h (Except.error.inj hh))
    | .error _, .ok _ => .isFalse (fun hh => Except.noConfusion hh)
    | .ok _, .error _ => .isFalse (fun hh => Except.noConfusion hh)
    | .ok a, .ok b =>
      if h : a = b then .isTrue (congrArg Except.ok h)
      else .isFalse (fun hh => h (Except.ok.inj hh))

/-- True exactly when the value is an Unauthorized error. -/
def isUnauthB {α : Type} (r : Except Err α) : Bool :=
  match r with
  | .error (.unauthorized _) => true
  | _ => false

/-- JWT.decode: unverified decoding, null on anything that is not a
compact JWS. -/
def decodeTok (t : TokenStr) : Option Claims :=
  match t with
  | .jwt c _ => some c
  | _ => none

/-- JWT.verify order of checks: provided, well-formed, signature,
not-before, expiry (expired iff `floor(now/1000) >= exp`). -/
def verifySig (t : TokenStr) (secret : String) (nowMs : Int) : Except JwtErr Claims :=
  match t with
  | .absent => .error .notProvided
  | .empty => .error .notProvided
  | .junk _ => .error .malformed
  | .bearer _ => .error .malformed
  | .jwt c key =>
    if key ≠ secret then .error .invalidSignature
    else
      let clock := Int.fdiv nowMs 1000
      match c.nbf with
      | some n =>
        if clock < n then .error .notActive
        else
          match c.exp with
          | some e => if e ≤ clock then .error (.expired e) else .ok c
          | none => .ok c
      | none =>
        match c.exp with
        | some e => if e ≤ clock then .error (.expired e) else .ok c
        | none => .ok c

/-- The configuration collaborator (Configuration interface): application
id, the three secrets, the three token lifetimes and the maximal renewal
span.  Secrets use "" for an unset (falsy) value; durations use `none`. -/
structure Config where
  appId : String
  httpSecret : String
  internalSecret : String
  remoteSecret : String → String
  httpTimeout : Option Nat
  internalTimeout : Option Nat
  remoteTimeout : Option Nat
  httpLifetime : Option Nat

/-- Ambient call environment: configuration, the current time `Date.now()`
in milliseconds, the next value of `Utils.uuid()`, and `new Date(string)`
parsing (none = Invalid Date / NaN). -/
structure Env where
  cfg : Config
  now : Int
  uuid : String
  parseDateMs : String → Option Int

/-- The Unauthorized message of an unresolved secret. -/
def unresolvedSecretMsg (s i a : String) : String :=
  "Can not resolve token secret for subject: [" ++ s ++ "], issuer: [" ++ i ++
    "], audience: [" ++ a ++ "]"

/-- The Unauthorized message of an unresolved timeout. -/
def unresolvedTimeoutMsg (s i a : String) : String :=
  "Can not resolve token timeout for subject: [" ++ s ++ "], issuer: [" ++ i ++
    "], audience: [" ++ a ++ "]"

/-- BaseSecurity.secret: resolves the signing or verification secret from
the (subject, issuer, audience) triple.  A `none` subject models the
TypeError a JavaScript call of `startsWith` on undefined raises; an
undefined issuer or audience compares unequal to every string.  An
unmatched rule chain leaves the secret falsy and throws Unauthorized. -/
def secretF (cfg : Config) (subject issuer audience : Option String) : Except Err String :=
  match subject with
  | none => .error (.jsError "Cannot read property startsWith of undefined")
  | some sub =>
    let sec : String :=
      if jsStartsWith sub "user:" then cfg.httpSecret
      else if sub = "internal" ∧ audience = some cfg.appId ∧ issuer = audience then cfg.internalSecret
      else if sub = "remote" ∧ audience = some cfg.appId ∧ issuer = audience then cfg.internalSecret
      else if sub = "remote" ∧ audience = some cfg.appId ∧ issuer ≠ audience then
        (match issuer with | some p => cfg.remoteSecret p | none => "")
      else if sub = "remote" ∧ issuer = some cfg.appId ∧ issuer ≠ audience then
        (match audience with | some p => cfg.remoteSecret p | none => "")
      else ""
    if sec = "" then
      .error (.unauthorized (unresolvedSecretMsg sub (optStr issuer) (optStr audience)))
    else .ok sec

/-- BaseSecurity.timeout: resolves the token lifetime from the same
triple.  Note rule 2 has no issuer condition and rule 5 only requires the
audience to differ from the application id. -/
def timeoutF (cfg : Config) (subject issuer audience : Option String) : Except Err Nat :=
  match subject with
  | none => .error (.jsError "Cannot read property startsWith of undefined")
  | some sub =>
    let t : Option Nat :=
      if jsStartsWith sub "user:" then cfg.httpTimeout
      else if sub = "internal" ∧ audience = some cfg.appId then cfg.internalTimeout
      else if sub = "remote" ∧ audience = some cfg.appId ∧ issuer = audience then cfg.internalTimeout
      else if sub = "remote" ∧ audience = some cfg.appId ∧ issuer ≠ audience then cfg.remoteTimeout
      else if sub = "remote" ∧ audience ≠ some cfg.appId then cfg.remoteTimeout
      else none
    match t with
    | none =>
      .error (.unauthorized (unresolvedTimeoutMsg sub (optStr issuer) (optStr audience)))
    | some v => .ok v

/-- A role set: a JavaScript object from role name to boolean. -/
structure Roles where
  entries : List (String × Bool)
deriving DecidableEq, Repr

/-- Property lookup on a role set. -/
def Roles.get (r : Roles) (k : String) : Option Bool :=
  (r.entries.find? (fun p => p.1 == k)).map (fun p => p.2)

/-- Membership test: `roles[k]` is exactly `true` (also its JavaScript truthiness, since
the values are booleans). -/
def Roles.allows (r : Roles) (k : String) : Prop := r.get k = some true

instance (r : Roles) (k : String) : Decidable (r.allows k) :=
  inferInstanceAs (Decidable (r.get k = some true))

/-- The per-method permission descriptor supplied by the metadata
collaborator. -/
structure PermissionMetadata where
  method : String
  roles : Roles
deriving DecidableEq, Repr

/-- Decoded in-memory identity (interface AuthInfo).  The timestamp
fields serial, issued and expires hold Date objects in the source; for
Contexts built by verify they are always Date objects, Invalid (NaN)
exactly when the corresponding claim was absent, so `none` models an
Invalid Date whose getTime() is NaN and whose comparisons are false. -/
structure AuthInfo where
  tokenId : Option String
  issuer : Option String
  audience : Option String
  subject : Option String
  remote : Bool
  userId : Option String
  role : Option String
  scope : Option String
  email : Option String
  name : Option String
  ipAddress : Option String
  serial : Option Int
  issued : Option Int
  expires : Option Int
  token : TokenStr
  renewed : Bool
deriving DecidableEq, Repr

/-- The unit returned by the gate (interface Context). -/
structure Context where
  requestId : String
  permission : PermissionMetadata
  auth : AuthInfo
deriving DecidableEq, Repr

/-- A serial timestamp supplied to issueToken: a Date (possibly Invalid,
getTime() = NaN, modelled by `date none`) or a number, in epoch
milliseconds.  `+serial || Date.now()` treats the number 0 as falsy; a
Date is taken as given via getTime(). -/
inductive SerialVal where
  | date (ms : Option Int)
  | num (ms : Int)
deriving DecidableEq, Repr

/-- Input to token issuance (interface IssueRequest). -/
structure IssueRequest where
  tokenId : Option String
  audience : Option String
  subject : Option String
  userId : Option String
  role : Option String
  scope : Option String
  serial : Option SerialVal
  email : Option String
  ipAddress : Option String
deriving Repr

/-- renew passes the AuthInfo itself as the IssueRequest.  Its serial is
always a Date object (verify builds it with `new Date(ist * 1000)`), so
it is passed as a Date even when Invalid. -/
def authAsIssueRequest (a : AuthInfo) : IssueRequest :=
  { tokenId := a.tokenId, audience := a.audience, subject := a.subject,
    userId := a.userId, role := a.role, scope := a.scope,
    serial := some (SerialVal.date a.serial), email := a.email,
    ipAddress := a.ipAddress }

/-- BaseSecurity.issueToken: defaults the token id and audience, resolves
secret and timeout for (subject, appId, audience), signs the claim set
{oid, role, scope, ist, email, ipaddr} with envelope {jti, iss = appId,
aud, sub, iat = floor(now/1000), exp = iat + floor(timeout/1000)}.  An
Invalid Date serial makes ist NaN, which JSON-serializes to a missing
value in the signed payload. -/
def issueToken (env : Env) (req : IssueRequest) : Except Err TokenStr :=
  match secretF env.cfg req.subject (some env.cfg.appId)
      (some (jsOrStr req.audience env.cfg.appId)) with
  | .error e => .error e
  | .ok secret =>
    match timeoutF env.cfg req.subject (some env.cfg.appId)
        (some (jsOrStr req.audience env.cfg.appId)) with
    | .error e => .error e
    | .ok tmo =>
      .ok (.jwt
        { jti := some (jsOrStr req.tokenId env.uuid),
          ist := (match req.serial with
             | some (.date (some ms)) => some (Int.fdiv ms 1000)
             | some (.date none) => none
             | some (.num ms) => some (Int.fdiv (if ms = 0 then env.now else ms) 1000)
             | none => some (Int.fdiv env.now 1000)),
          iss := some env.cfg.appId,
          aud := some (jsOrStr req.audience env.cfg.appId),
          sub := req.subject,
          iat := some (Int.fdiv env.now 1000), nbf := none,
          exp := some (Int.fdiv env.now 1000 + ((tmo / 1000 : Nat) : Int)),
          oid := req.userId, email := req.email, name := none,
          ipaddr := req.ipAddress, role := req.role, scope := req.scope }
        secret)

/-- The Unauthorized message verify produces for an expired token
(`new Date(exp*1000)` and `new Date()` rendered in the message). -/
def expiredMsg (expSec : Int) (nowMs : Int) : String :=
  "Token: expired [" ++ toString (expSec * 1000) ++ "] < [" ++ toString nowMs ++ "]"

/-- The try block of verify: decode unverified, resolve the secret from
the decoded claims (falling back to the literal "NULL" when decoding
returned null), verify the signature.  The catch maps the "jwt expired"
message to Unauthorized and every other thrown error, including the
Unauthorized raised by the secret resolver, to BadRequest. -/
def tryVerify (env : Env) (token : TokenStr) : Except Err Claims :=
  match (match decodeTok token with
         | none => Except.ok "NULL"
         | some c => secretF env.cfg c.sub c.iss c.aud) with
  | .error e => .error (.badRequest ("Token: " ++ e.message))
  | .ok secret =>
    match verifySig token secret env.now with
    | .ok c => .ok c
    | .error (.expired e) => .error (.unauthorized (expiredMsg e env.now))
    | .error je => .error (.badRequest ("Token: " ++ je.message))

/-- The Context verify assembles from the verified claim set. -/
def mkAuthCtx (requestId : String) (token : TokenStr) (perm : PermissionMetadata)
    (c : Claims) : Context :=
  { requestId := requestId, permission := perm,
    auth :=
      { tokenId := c.jti, subject := c.sub, issuer := c.iss,
        audience := c.aud, remote := c.iss ≠ c.aud, userId := c.oid,
        role := c.role, scope := c.scope, email := c.email, name := c.name,
        ipAddress := c.ipaddr, serial := c.ist.map (fun v => v * 1000),
        issued := c.iat.map (fun v => v * 1000),
        expires := c.exp.map (fun v => v * 1000), token := token,
        renewed := false } }

/-- BaseSecurity.verify: Bearer strip, decode + secret + signature/expiry
inside try/catch, audience check, ip check and role check (both skipped
for the role "Application"), then the secondary staleness check
`new Date(iss).getTime() + MS(timeout(sub, iss, aud)) < Date.now()`
(false when the issuer does not parse as a date), then the Context. -/
def verifyT (env : Env) (requestId : String) (token0 : TokenStr)
    (perm : PermissionMetadata) (ipAddress : Option String) : Except Err Context :=
  match tryVerify env (stripBearer token0) with
  | .error e => .error e
  | .ok c =>
    if c.aud ≠ some env.cfg.appId then
      .error (.unauthorized ("Invalid audience: " ++ optStr c.aud))
    else if c.role ≠ some "Application" ∧ jsTruthyS ipAddress = true ∧ c.ipaddr ≠ ipAddress then
      .error (.unauthorized ("Invalid request IP address: " ++ optStr c.ipaddr))
    else if c.role ≠ some "Application" ∧ ¬ perm.roles.allows (optStr c.role) then
      .error (.unauthorized ("Role [" ++ optStr c.role ++
        "] not authorized to access method [" ++ perm.method ++ "]"))
    else
      match timeoutF env.cfg c.sub c.iss c.aud with
      | .error e => .error e
      | .ok tmo =>
        match (match c.iss with | none => none | some s => env.parseDateMs s) with
        | some d =>
          if d + (tmo : Int) < env.now then
            .error (.unauthorized ("Token: expired [" ++ toString (d + (tmo : Int)) ++ "]"))
          else .ok (mkAuthCtx requestId (stripBearer token0) perm c)
        | none => .ok (mkAuthCtx requestId (stripBearer token0) perm c)

/-- BaseSecurity.renew: resets the renewed flag, then reissues the token
when it was issued by this application, a renewal lifetime is configured,
the subject is a REST user, the time to expiry is at most half the HTTP
timeout and the total age stays within the lifetime; otherwise a no-op.
The expires and serial fields are Date objects (verify always sets
them); when one is Invalid its getTime() is NaN, both guard comparisons
are false and the token is reissued.  MS(httpTimeout) still throws when
the HTTP timeout is not configured. -/
def renewReset (a : AuthInfo) : AuthInfo := { a with renewed := false }

def renewE (env : Env) (auth0 : AuthInfo) : Except Err AuthInfo :=
  if auth0.issuer ≠ some env.cfg.appId ∨ env.cfg.httpLifetime = none then
    .ok (renewReset auth0)
  else if auth0.subject ≠ some "user:internal" ∧
      auth0.subject ≠ some "user:external" then
    .ok (renewReset auth0)
  else
    match env.cfg.httpTimeout with
    | none => .error (.jsError "val is not a non-empty string or a valid number")
    | some ht =>
      if (match auth0.expires with
          | some e => decide (2 * (e - env.now) > (ht : Int))
          | none => false) = true then
        .ok (renewReset auth0)
      else
        match env.cfg.httpLifetime with
        | none => .ok (renewReset auth0)
        | some lt =>
          if (match auth0.expires, auth0.serial with
              | some e, some s => decide (e - s > (lt : Int))
              | _, _ => false) = true then
            .ok (renewReset auth0)
          else
            match issueToken env (authAsIssueRequest auth0) with
            | .error err => .error err
            | .ok tok => .ok { renewReset auth0 with token := tok, renewed := true }

/-- verify followed by renew, replacing the auth of the context (lines
129-130 and 160-161 of the source). -/
def verifyRenew (env : Env) (requestId : String) (token : TokenStr)
    (perm : PermissionMetadata) (ip : Option String) : Except Err Context :=
  match verifyT env requestId token perm ip with
  | .error e => .error e
  | .ok ctx =>
    match renewE env ctx.auth with
    | .error e => .error e
    | .ok a => .ok { ctx with auth := a }

/-- Shape of an inbound HTTP request as the gate reads it. -/
structure HttpRequest where
  requestId : String
  headers : Option (List (String × TokenStr))
  queryStringParameters : Option (List (String × TokenStr))
  pathParameters : Option (List (String × TokenStr))
  sourceIp : Option String

/-- JavaScript property read on a string map (absent key is undefined). -/
def mapGet (m : List (String × TokenStr)) (k : String) : TokenStr :=
  match m.find? (fun p => p.1 == k) with
  | some p => p.2
  | none => .absent

/-- JavaScript `a || b` on token values. -/
def tokOr (a b : TokenStr) : TokenStr := if a.truthy then a else b

/-- Token extraction order of httpAuth: Authorization/authorization
headers, then authorization/token query parameters, then the
authorization path parameter. -/
def extractToken (req : HttpRequest) : TokenStr :=
  tokOr
    (tokOr
      (match req.headers with
       | none => TokenStr.absent
       | some hs => tokOr (mapGet hs "Authorization") (mapGet hs "authorization"))
      (match req.queryStringParameters with
       | none => TokenStr.absent
       | some qs => tokOr (mapGet qs "authorization") (mapGet qs "token")))
    (match req.pathParameters with
     | none => TokenStr.absent
     | some ps => mapGet ps "authorization")

/-- The synthetic public Context httpAuth builds for a Public or Debug
permission. -/
def publicContext (env : Env) (req : HttpRequest) (perm : PermissionMetadata)
    (token : TokenStr) : Context :=
  { requestId := req.requestId, permission := perm,
    auth :=
      { tokenId := some req.requestId, subject := some "user:public",
        issuer := some env.cfg.appId, audience := some env.cfg.appId,
        remote := false, userId := none, role := some "Public", scope := none,
        email := none, name := none, ipAddress := none, serial := none,
        issued := some env.now, expires := some (env.now + 60000),
        token := token, renewed := false } }

/-- The synthetic debug identity: the public Context with subject and role
overridden. -/
def debugContext (env : Env) (req : HttpRequest) (perm : PermissionMetadata)
    (token : TokenStr) : Context :=
  { publicContext env req perm token with
    auth :=
      { (publicContext env req perm token).auth with
        subject := some "user:debug", role := some "Debug" } }

/-- BaseSecurity.httpAuth. -/
def httpAuth (env : Env) (req : HttpRequest) (perm : PermissionMetadata) :
    Except Err Context :=
  if ¬ perm.roles.allows "Public" ∧ ¬ perm.roles.allows "Debug" then
    if ¬ (extractToken req).truthy then .error (.unauthorized "Missing authorization token")
    else verifyRenew env req.requestId (extractToken req) perm req.sourceIp
  else if perm.roles.allows "Debug" then
    if req.sourceIp ≠ some "127.0.0.1" ∧ req.sourceIp ≠ some "::1" then
      .error (.forbidden "Debug role only valid for localhost")
    else if (extractToken req).truthy then
      match verifyRenew env req.requestId (extractToken req) perm req.sourceIp with
      | .ok ctx => .ok ctx
      | .error _ => .ok (debugContext env req perm (extractToken req))
    else .ok (debugContext env req perm (extractToken req))
  else .ok (publicContext env req perm (extractToken req))

/-- Shape of an inbound remote call. -/
structure RemoteRequest where
  requestId : String
  token : TokenStr

/-- BaseSecurity.remoteAuth. -/
def remoteAuth (env : Env) (req : RemoteRequest) (perm : PermissionMetadata) :
    Except Err Context :=
  if ¬ perm.roles.allows "Remote" ∧ ¬ perm.roles.allows "Internal" then
    .error (.forbidden ("Remote requests not allowed for method [" ++ perm.method ++ "]"))
  else
    match verifyT env req.requestId req.token perm none with
    | .error e => .error e
    | .ok ctx =>
      if ctx.auth.remote = true ∧ ¬ perm.roles.allows "Remote" then
        .error (.unauthorized ("Internal request allowed only for method [" ++ perm.method ++ "]"))
      else .ok ctx

/-- Shape of an inbound event delivery. -/
structure EventRequest where
  requestId : String

/-- The synthetic event Context. -/
def eventContext (env : Env) (req : EventRequest) (perm : PermissionMetadata) : Context :=
  { requestId := req.requestId, permission := perm,
    auth :=
      { tokenId := some req.requestId, subject := some "event",
        issuer := some env.cfg.appId, audience := some env.cfg.appId,
        remote := false, userId := none, role := some "Internal", scope := none,
        email := none, name := none, ipAddress := none, serial := none,
        issued := some env.now, expires := some (env.now + 60000),
        token := TokenStr.absent, renewed := false } }

/-- BaseSecurity.eventAuth. -/
def eventAuth (env : Env) (req : EventRequest) (perm : PermissionMetadata) :
    Except Err Context :=
  if ¬ perm.roles.allows "Internal" then
    .error (.forbidden ("Internal events not allowed for method [" ++ perm.method ++ "]"))
  else .ok (eventContext env req perm)

/-! Ordered-rule presentations of the two resolvers, written from the
specification text (ordered guard/value rules, first match wins), used to
compare the code against the five-rule description. -/

/-- First match wins over an ordered list of guard/value rules. -/
def firstMatch {α : Type} (rules : List (Bool × α)) : Option α :=
  match rules with
  | [] => none
  | (g, v) :: rest => if g then some v else firstMatch rest

/-- The five ordered secret resolution rules as the specification states
them: user prefix, internal self-issued, remote self-issued, remote
inbound (peer = issuer), remote outbound (peer = audience). -/
def secretRules (cfg : Config) (s i a : String) : Option String :=
  firstMatch
    [ (jsStartsWith s "user:", cfg.httpSecret),
      (decide (s = "internal" ∧ a = cfg.appId ∧ i = a), cfg.internalSecret),
      (decide (s = "remote" ∧ a = cfg.appId ∧ i = a), cfg.internalSecret),
      (decide (s = "remote" ∧ a = cfg.appId ∧ i ≠ a), cfg.remoteSecret i),
      (decide (s = "remote" ∧ i = cfg.appId ∧ i ≠ a), cfg.remoteSecret a) ]

@[simp] theorem firstMatch_nil {α : Type} : firstMatch ([] : List (Bool × α)) = none := rfl

@[simp] theorem firstMatch_cons_true {α : Type} (v : α) (rest : List (Bool × α)) :
    firstMatch ((true, v) :: rest) = some v := rfl

@[simp] theorem firstMatch_cons_false {α : Type} (v : α) (rest : List (Bool × α)) :
    firstMatch ((false, v) :: rest) = firstMatch rest := rfl

/-- Five-rule first-match presentation of the secret resolver: the
matched secret when non-empty, Unauthorized when no rule matches or the
matched secret is empty. -/
def secretSpecF (cfg : Config) (s i a : String) : Except Err String :=
  match secretRules cfg s i a with
  | none => .error (.unauthorized (unresolvedSecretMsg s i a))
  | some v =>
    if v = "" then .error (.unauthorized (unresolvedSecretMsg s i a))
    else .ok v

/-- The five ordered timeout rules as the code has them: rule 2 does not
require the issuer to equal the audience, and rule 5 only requires the
audience to differ from the application id.  `some none` is a matched
rule whose configured lifetime is unset. -/
def timeoutRules (cfg : Config) (s i a : String) : Option (Option Nat) :=
  firstMatch
    [ (jsStartsWith s "user:", cfg.httpTimeout),
      (decide (s = "internal" ∧ a = cfg.appId), cfg.internalTimeout),
      (decide (s = "remote" ∧ a = cfg.appId ∧ i = a), cfg.internalTimeout),
      (decide (s = "remote" ∧ a = cfg.appId ∧ i ≠ a), cfg.remoteTimeout),
      (decide (s = "remote" ∧ a ≠ cfg.appId), cfg.remoteTimeout) ]

/-- Five-rule first-match presentation of the timeout resolver. -/
def timeoutSpecF (cfg : Config) (s i a : String) : Except Err Nat :=
  match timeoutRules cfg s i a with
  | none => .error (.unauthorized (unresolvedTimeoutMsg s i a))
  | some none => .error (.unauthorized (unresolvedTimeoutMsg s i a))
  | some (some v) => .ok v

/-! Concrete test fixtures shared by witnesses and counterexamples. -/

/-- A concrete configuration: application id "app", all secrets set, all
lifetimes configured, one registered remote peer "peer". -/
def cfgT : Config :=
  { appId := "app", httpSecret := "hs", internalSecret := "isec",
    remoteSecret := fun p => if p = "peer" then "rs" else "",
    httpTimeout := some 60000, internalTimeout := some 30000,
    remoteTimeout := some 5000, httpLifetime := some 3600000 }

/-- A concrete environment over `cfgT`; the application id "app" does not
parse as a calendar date. -/
def envT : Env :=
  { cfg := cfgT, now := 1000000000000, uuid := "uuid-1",
    parseDateMs := fun _ => none }

/-! Claim C7. -/

/-- Claim C7: secret(subject, issuer, audience) evaluates exactly the
five ordered rules (user prefix, internal self-issued, remote self-issued,
remote inbound peer, remote outbound peer), first match wins, and throws
Unauthorized, not a crash, exactly when no rule matches or the matched
secret is empty. -/
theorem C7_secret_five_rules (cfg : Config) (s i a : String) :
    secretF cfg (some s) (some i) (some a) = secretSpecF cfg s i a ∧
    (isUnauthB (secretF cfg (some s) (some i) (some a)) = true ↔
      secretRules cfg s i a = none ∨ secretRules cfg s i a = some "") := by
  have heq : secretF cfg (some s) (some i) (some a) = secretSpecF cfg s i a := by
    unfold secretF secretSpecF secretRules
    simp only [optStr]
    by_cases h1 : jsStartsWith s "user:" <;>
    by_cases h2 : s = "internal" <;>
    by_cases h3 : a = cfg.appId <;>
    by_cases h4 : i = a <;>
    by_cases h5 : s = "remote" <;>
    by_cases h6 : i = cfg.appId <;>
    simp_all
  refine ⟨heq, ?_⟩
  rw [heq]
  unfold secretSpecF
  cases hr : secretRules cfg s i a with
  | none => simp [isUnauthB]
  | some v =>
    by_cases hv : v = "" <;> simp [isUnauthB, hv]

/-! Claim C8. -/

/-- Claim C8 counterexample: on the triple (internal, other, app) none of
the five secret rules matches, so secret throws Unauthorized, yet timeout
succeeds and returns the internal lifetime, because its second rule omits
the issuer = audience requirement.  The success domains therefore differ,
refuting the claim that timeout succeeds on exactly the secret rule
conditions. -/
theorem C8_counterexample :
    isUnauthB (secretF cfgT (some "internal") (some "other") (some "app")) = true ∧
    secretRules cfgT "internal" "other" "app" = none ∧
    timeoutF cfgT (some "internal") (some "other") (some "app") = .ok 30000 := by
  refine ⟨?_, ?_, ?_⟩ <;> decide

/-- Claim C8 amended: timeout(subject, issuer, audience) evaluates a
five-rule first-match structure whose rules 1, 3 and 4 coincide with the
secret rules, whose rule 2 requires only subject internal and audience
equal to the application id (no issuer condition), and whose rule 5
requires only subject remote and audience different from the application
id; it selects between the HTTP, internal and remote lifetimes and fails
with Unauthorized exactly when no rule matches or the matched lifetime is
not configured. -/
theorem C8_amended_timeout_rules (cfg : Config) (s i a : String) :
    timeoutF cfg (some s) (some i) (some a) = timeoutSpecF cfg s i a ∧
    (isUnauthB (timeoutF cfg (some s) (some i) (some a)) = true ↔
      timeoutRules cfg s i a = none ∨ timeoutRules cfg s i a = some none) := by
  have heq : timeoutF cfg (some s) (some i) (some a) = timeoutSpecF cfg s i a := by
    unfold timeoutF timeoutSpecF timeoutRules
    simp only [optStr]
    by_cases h1 : jsStartsWith s "user:" <;>
    by_cases h2 : s = "internal" <;>
    by_cases h3 : a = cfg.appId <;>
    by_cases h4 : i = a <;>
    by_cases h5 : s = "remote" <;>
    simp_all <;>
    first
      | (cases cfg.httpTimeout <;> rfl)
      | (cases cfg.internalTimeout <;> rfl)
      | (cases cfg.remoteTimeout <;> rfl)
  refine ⟨heq, ?_⟩
  rw [heq]
  unfold timeoutSpecF
  cases hr : timeoutRules cfg s i a with
  | none => simp [isUnauthB]
  | some v =>
    cases v with
    | none => simp [isUnauthB]
    | some n => simp [isUnauthB]

/-! Claim C1. -/

/-- The role invariant of a returned Context: its auth role is a key of
its permission role set with value true, or the sentinel Application. -/
def roleInv (ctx : Context) : Prop :=
  ctx.permission.roles.allows (optStr ctx.auth.role) ∨ ctx.auth.role = some "Application"

theorem verifyT_ok_inv (env : Env) (rid : String) (t : TokenStr)
    (perm : PermissionMetadata) (ip : Option String) (ctx : Context)
    (h : verifyT env rid t perm ip = .ok ctx) :
    ctx.permission = perm ∧ roleInv ctx := by
  unfold verifyT at h
  repeat' split at h
  all_goals
    first
      | exact Except.noConfusion h
      | (injection h with h2
         subst h2
         exact ⟨rfl, by simp only [roleInv, mkAuthCtx]; tauto⟩)

theorem renewE_ok_role (env : Env) (a b : AuthInfo) (h : renewE env a = .ok b) :
    b.role = a.role := by
  unfold renewE at h
  repeat' split at h
  all_goals
    first
      | exact Except.noConfusion h
      | (injection h with h2; subst h2; rfl)

theorem verifyRenew_ok_inv (env : Env) (rid : String) (t : TokenStr)
    (perm : PermissionMetadata) (ip : Option String) (ctx : Context)
    (h : verifyRenew env rid t perm ip = .ok ctx) :
    ctx.permission = perm ∧ roleInv ctx := by
  unfold verifyRenew at h
  split at h
  · exact Except.noConfusion h
  · rename_i ctx0 hv
    split at h
    · exact Except.noConfusion h
    · rename_i a hr
      injection h with h2
      subst h2
      have h1 := verifyT_ok_inv env rid t perm ip ctx0 hv
      have hrole := renewE_ok_role env ctx0.auth a hr
      refine ⟨h1.1, ?_⟩
      simp only [roleInv] at h1 ⊢
      rw [hrole]
      exact h1.2

/-- Claim C1: every Context returned by httpAuth, remoteAuth or eventAuth
carries an auth role that is a key of the permission role set with value
true, or the literal role Application (which also skips the ip check in
verify). -/
theorem C1_returned_role_always_permitted (env : Env) (hreq : HttpRequest)
    (rreq : RemoteRequest) (ereq : EventRequest) (perm : PermissionMetadata) :
    (∀ ctx, httpAuth env hreq perm = .ok ctx → roleInv ctx) ∧
    (∀ ctx, remoteAuth env rreq perm = .ok ctx → roleInv ctx) ∧
    (∀ ctx, eventAuth env ereq perm = .ok ctx → roleInv ctx) := by
  refine ⟨?_, ?_, ?_⟩
  · intro ctx h
    unfold httpAuth at h
    split at h
    · split at h
      · exact Except.noConfusion h
      · exact (verifyRenew_ok_inv env hreq.requestId (extractToken hreq) perm
          hreq.sourceIp ctx h).2
    · rename_i hnot
      split at h
      · rename_i hdbg
        split at h
        · exact Except.noConfusion h
        · split at h
          · split at h
            · rename_i ctx1 hvr
              injection h with h2
              subst h2
              exact (verifyRenew_ok_inv env hreq.requestId (extractToken hreq) perm
                hreq.sourceIp ctx1 hvr).2
            · injection h with h2
              subst h2
              exact Or.inl hdbg
          · injection h with h2
            subst h2
            exact Or.inl hdbg
      · rename_i hdbg
        injection h with h2
        subst h2
        have hpub : perm.roles.allows "Public" := by tauto
        exact Or.inl hpub
  · intro ctx h
    unfold remoteAuth at h
    split at h
    · exact Except.noConfusion h
    · split at h
      · exact Except.noConfusion h
      · rename_i ctx0 hv
        split at h
        · exact Except.noConfusion h
        · injection h with h2
          subst h2
          exact (verifyT_ok_inv env rreq.requestId rreq.token perm none ctx0 hv).2
  · intro ctx h
    unfold eventAuth at h
    split at h
    · exact Except.noConfusion h
    · rename_i hint
      injection h with h2
      subst h2
      simp only [not_not] at hint
      exact Or.inl hint

/-- Fixture: a permission that only allows Public. -/
def permPub : PermissionMetadata := { method := "m", roles := ⟨[("Public", true)]⟩ }

/-- Fixture: a permission that only allows Internal. -/
def permInt : PermissionMetadata := { method := "m", roles := ⟨[("Internal", true)]⟩ }

/-- Fixture: a plain HTTP request without token from a non-local source. -/
def reqH : HttpRequest :=
  { requestId := "r1", headers := none, queryStringParameters := none,
    pathParameters := none, sourceIp := some "9.9.9.9" }

/-- Fixture: claims of a self-issued internal token, not expired at
`envT.now`, with role Internal. -/
def cRem : Claims :=
  { jti := some "j1", ist := some 0, iss := some "app", aud := some "app",
    sub := some "internal", iat := some 0, nbf := none,
    exp := some 2000000000, oid := none, email := none, name := none,
    ipaddr := none, role := some "Internal", scope := none }

theorem C1_returned_role_always_permitted_witness :
    roleInv (publicContext envT reqH permPub TokenStr.absent) ∧
    roleInv (mkAuthCtx "rr" (TokenStr.jwt cRem "isec") permInt cRem) ∧
    roleInv (eventContext envT { requestId := "re" } permInt) := by
  refine ⟨?_, ?_, ?_⟩
  · exact (C1_returned_role_always_permitted envT reqH
      { requestId := "rr", token := TokenStr.jwt cRem "isec" }
      { requestId := "re" } permPub).1 _ (by decide)
  · exact (C1_returned_role_always_permitted envT reqH
      { requestId := "rr", token := TokenStr.jwt cRem "isec" }
      { requestId := "re" } permInt).2.1 _ (by decide)
  · exact (C1_returned_role_always_permitted envT reqH
      { requestId := "rr", token := TokenStr.jwt cRem "isec" }
      { requestId := "re" } permInt).2.2 _ (by decide)

/-! Claim C4. -/

/-- Claim C4: remoteAuth throws Forbidden before any token handling when
the permission allows neither Remote nor Internal; and when the
permission allows the call (Internal allowed) but not Remote and the
token verifies to a remote identity (issuer differing from audience), it
throws Unauthorized. -/
theorem C4_remoteAuth_gates (env : Env) (req : RemoteRequest) (perm : PermissionMetadata) :
    (¬ perm.roles.allows "Remote" → ¬ perm.roles.allows "Internal" →
      remoteAuth env req perm =
        .error (.forbidden ("Remote requests not allowed for method [" ++ perm.method ++ "]"))) ∧
    (∀ ctx, perm.roles.allows "Internal" → ¬ perm.roles.allows "Remote" →
      verifyT env req.requestId req.token perm none = .ok ctx → ctx.auth.remote = true →
      remoteAuth env req perm =
        .error (.unauthorized ("Internal request allowed only for method [" ++ perm.method ++ "]"))) := by
  constructor
  · intro h1 h2
    unfold remoteAuth
    rw [if_pos ⟨h1, h2⟩]
  · intro ctx hInt hRem hv hremote
    have hcond : ¬ (¬ perm.roles.allows "Remote" ∧ ¬ perm.roles.allows "Internal") := by
      tauto
    unfold remoteAuth
    rw [if_neg hcond, hv]
    simp only []
    rw [if_pos ⟨hremote, hRem⟩]

/-- Fixture: a permission that allows no role at all. -/
def permNone : PermissionMetadata := { method := "m", roles := ⟨[]⟩ }

/-- Fixture: claims of a remote token issued by peer "peer" for "app"
with the bypass role Application, not expired at `envT.now`. -/
def cRem2 : Claims :=
  { jti := some "j2", ist := some 0, iss := some "peer", aud := some "app",
    sub := some "remote", iat := some 0, nbf := none,
    exp := some 2000000000, oid := some "u2", email := none, name := none,
    ipaddr := none, role := some "Application", scope := none }

theorem C4_remoteAuth_gates_witness :
    remoteAuth envT { requestId := "rq", token := TokenStr.absent } permNone =
      .error (.forbidden "Remote requests not allowed for method [m]") ∧
    remoteAuth envT { requestId := "rr", token := TokenStr.jwt cRem2 "rs" } permInt =
      .error (.unauthorized "Internal request allowed only for method [m]") := by
  constructor
  · exact (C4_remoteAuth_gates envT { requestId := "rq", token := TokenStr.absent }
      permNone).1 (by decide) (by decide)
  · exact (C4_remoteAuth_gates envT { requestId := "rr", token := TokenStr.jwt cRem2 "rs" }
      permInt).2 (mkAuthCtx "rr" (TokenStr.jwt cRem2 "rs") permInt cRem2)
      (by decide) (by decide) (by decide) (by decide)

/-! Claim C9. -/

/-- Claim C9 counterexample: a decoded token whose (sub, iss, aud) triple
resolves no secret rule makes verify fail with BadRequest, not with an
Unauthorized error: the Unauthorized thrown by the secret resolver is
raised inside the try block of verify and remapped by its catch. -/
theorem C9_counterexample :
    verifyT envT "r" (TokenStr.jwt
        { jti := none, ist := none, iss := some "other", aud := some "app",
          sub := some "internal", iat := none, nbf := none, exp := none,
          oid := none, email := none, name := none, ipaddr := none,
          role := none, scope := none } "k") permPub none =
      .error (.badRequest
        "Token: Can not resolve token secret for subject: [internal], issuer: [other], audience: [app]") ∧
    isUnauthB (verifyT envT "r" (TokenStr.jwt
        { jti := none, ist := none, iss := some "other", aud := some "app",
          sub := some "internal", iat := none, nbf := none, exp := none,
          oid := none, email := none, name := none, ipaddr := none,
          role := none, scope := none } "k") permPub none) = false := by
  constructor <;> decide

/-- Claim C9 amended: when secret resolution fails during verify for the
decoded claims of a compact token, verify fails with BadRequest carrying
the resolver message (the resolver error is thrown inside the try block
and remapped by the catch clause of verify). -/
theorem C9_amended_unresolved_secret_maps_to_badRequest (env : Env) (rid : String)
    (perm : PermissionMetadata) (ip : Option String) (c : Claims) (key : String)
    (err : Err) (hsec : secretF env.cfg c.sub c.iss c.aud = .error err) :
    verifyT env rid (TokenStr.jwt c key) perm ip =
      .error (.badRequest ("Token: " ++ err.message)) := by
  unfold verifyT tryVerify stripBearer decodeTok
  simp only [hsec]

theorem C9_amended_unresolved_secret_maps_to_badRequest_witness :
    verifyT envT "r2" (TokenStr.jwt
        { jti := none, ist := none, iss := some "x", aud := some "y",
          sub := some "remote", iat := none, nbf := none, exp := none,
          oid := none, email := none, name := none, ipaddr := none,
          role := none, scope := none } "k") permPub none =
      .error (.badRequest
        "Token: Can not resolve token secret for subject: [remote], issuer: [x], audience: [y]") := by
  exact C9_amended_unresolved_secret_maps_to_badRequest envT "r2" permPub none
    { jti := none, ist := none, iss := some "x", aud := some "y",
      sub := some "remote", iat := none, nbf := none, exp := none,
      oid := none, email := none, name := none, ipaddr := none,
      role := none, scope := none } "k"
    (.unauthorized (unresolvedSecretMsg "remote" "x" "y")) (by decide)

/-! Claim C3. -/

/-- Fixture: claims of a long-expired http-user token. -/
def cExpired : Claims :=
  { jti := some "j3", ist := some 0, iss := some "app", aud := some "app",
    sub := some "user:x", iat := some 0, nbf := none, exp := some 0,
    oid := some "u3", email := none, name := none, ipaddr := none,
    role := some "User", scope := none }

/-- Claim C3 counterexample: an expired token signed with the wrong
secret fails with BadRequest (invalid signature), not Unauthorized,
because jsonwebtoken checks the signature before the expiry. -/
theorem C3_counterexample :
    cExpired.exp = some 0 ∧ (0 : Int) ≤ Int.fdiv envT.now 1000 ∧
    verifyT envT "r" (TokenStr.jwt cExpired "wrong") permPub none =
      .error (.badRequest "Token: invalid signature") ∧
    isUnauthB (verifyT envT "r" (TokenStr.jwt cExpired "wrong") permPub none) = false := by
  refine ⟨?_, ?_, ?_, ?_⟩ <;> decide

theorem verifyT_expired_aux (env : Env) (rid : String)
    (perm : PermissionMetadata) (ip : Option String) (c : Claims) (key : String)
    (e : Int)
    (hsec : secretF env.cfg c.sub c.iss c.aud = .ok key)
    (hnbf : ∀ n, c.nbf = some n → ¬ (Int.fdiv env.now 1000 < n))
    (hexp : c.exp = some e) (he : e ≤ Int.fdiv env.now 1000) :
    verifyT env rid (TokenStr.jwt c key) perm ip =
      .error (.unauthorized (expiredMsg e env.now)) := by
  have hsig : verifySig (TokenStr.jwt c key) key env.now = .error (.expired e) := by
    simp only [verifySig]
    rw [if_neg (by simp)]
    cases hn : c.nbf with
    | some n =>
      simp only [hn]
      rw [if_neg (hnbf n hn), hexp]
      simp only [if_pos he]
    | none =>
      simp only [hn]
      rw [hexp]
      simp only [if_pos he]
  unfold verifyT tryVerify stripBearer decodeTok
  simp only [hsec, hsig]

/-- Claim C3 amended: a compact token whose signature is valid for the
resolved secret, which is not blocked by a not-before claim, and whose
exp claim has passed, always fails verify with Unauthorized carrying both
the expiry time and the current time in the message, for every
permission and ip address. -/
theorem C3_amended_expired_valid_signature (env : Env) (rid : String)
    (perm : PermissionMetadata) (ip : Option String) (c : Claims) (key : String)
    (e : Int)
    (hsec : secretF env.cfg c.sub c.iss c.aud = .ok key)
    (hnbf : ∀ n, c.nbf = some n → ¬ (Int.fdiv env.now 1000 < n))
    (hexp : c.exp = some e) (he : e ≤ Int.fdiv env.now 1000) :
    verifyT env rid (TokenStr.jwt c key) perm ip =
      .error (.unauthorized (expiredMsg e env.now)) :=
  verifyT_expired_aux env rid perm ip c key e hsec hnbf hexp he

theorem C3_amended_expired_valid_signature_witness :
    verifyT envT "r" (TokenStr.jwt cExpired "hs") permPub none =
      .error (.unauthorized (expiredMsg 0 envT.now)) := by
  exact C3_amended_expired_valid_signature envT "r" permPub none cExpired "hs" 0
    (by decide) (by intro n hn; cases hn) (by decide) (by decide)

theorem verifyT_success_aux (env : Env) (rid : String) (perm : PermissionMetadata)
    (ip : Option String) (c : Claims) (key : String) (tmo : Nat)
    (hsec : secretF env.cfg c.sub c.iss c.aud = .ok key)
    (hnbf : ∀ n, c.nbf = some n → ¬ (Int.fdiv env.now 1000 < n))
    (hexpok : ∀ e, c.exp = some e → Int.fdiv env.now 1000 < e)
    (haud : c.aud = some env.cfg.appId)
    (hipneg : ¬ (c.role ≠ some "Application" ∧ jsTruthyS ip = true ∧ c.ipaddr ≠ ip))
    (hroleneg : ¬ (c.role ≠ some "Application" ∧ ¬ perm.roles.allows (optStr c.role)))
    (htmo : timeoutF env.cfg c.sub c.iss c.aud = .ok tmo)
    (hissn : (match c.iss with | none => none | some s => env.parseDateMs s)
      = (none : Option Int)) :
    verifyT env rid (TokenStr.jwt c key) perm ip =
      .ok (mkAuthCtx rid (TokenStr.jwt c key) perm c) := by
  have hsig : verifySig (TokenStr.jwt c key) key env.now = .ok c := by
    simp only [verifySig]
    rw [if_neg (by simp)]
    cases hn : c.nbf with
    | some n =>
      simp only [hn]
      rw [if_neg (hnbf n hn)]
      cases hx : c.exp with
      | some e =>
        simp only [hx]
        simp only [if_neg (show ¬ (e ≤ Int.fdiv env.now 1000) from by
          have := hexpok e hx; omega)]
      | none => simp only [hx]
    | none =>
      simp only [hn]
      cases hx : c.exp with
      | some e =>
        simp only [hx]
        simp only [if_neg (show ¬ (e ≤ Int.fdiv env.now 1000) from by
          have := hexpok e hx; omega)]
      | none => simp only [hx]
  unfold verifyT tryVerify stripBearer decodeTok
  simp only [hsec, hsig,
    if_neg (show ¬ (c.aud ≠ some env.cfg.appId) from by simp [haud]),
    if_neg hipneg, if_neg hroleneg, htmo, hissn]

/-! Claim C10. -/

/-- Claim C10: when a compact token passes the signature, audience, ip
and role checks of verify, the timeout for its triple resolves, and its
iss claim does not parse as a calendar date (the usual case for a plain
application id), the secondary staleness check of step 6 never rejects
(the NaN comparison is false): verify succeeds whenever the exp claim
has not passed, succeeds when there is no exp claim, and the only
expiry rejection is the one driven by the exp claim itself. -/
theorem C10_staleness_check_vacuous_on_nondate_issuer (env : Env) (rid : String)
    (perm : PermissionMetadata) (ip : Option String) (c : Claims) (key : String)
    (tmo : Nat)
    (hsec : secretF env.cfg c.sub c.iss c.aud = .ok key)
    (hnbf : ∀ n, c.nbf = some n → ¬ (Int.fdiv env.now 1000 < n))
    (haud : c.aud = some env.cfg.appId)
    (hip : c.role = some "Application" ∨ jsTruthyS ip = false ∨ c.ipaddr = ip)
    (hrole : c.role = some "Application" ∨ perm.roles.allows (optStr c.role))
    (htmo : timeoutF env.cfg c.sub c.iss c.aud = .ok tmo)
    (hiss : ∀ s, c.iss = some s → env.parseDateMs s = none) :
    (∀ e, c.exp = some e → Int.fdiv env.now 1000 < e →
      verifyT env rid (TokenStr.jwt c key) perm ip =
        .ok (mkAuthCtx rid (TokenStr.jwt c key) perm c)) ∧
    (c.exp = none →
      verifyT env rid (TokenStr.jwt c key) perm ip =
        .ok (mkAuthCtx rid (TokenStr.jwt c key) perm c)) ∧
    (∀ e, c.exp = some e → e ≤ Int.fdiv env.now 1000 →
      verifyT env rid (TokenStr.jwt c key) perm ip =
        .error (.unauthorized (expiredMsg e env.now))) := by
  have hipneg : ¬ (c.role ≠ some "Application" ∧ jsTruthyS ip = true ∧ c.ipaddr ≠ ip) := by
    rcases hip with h | h | h
    · tauto
    · simp [h]
    · tauto
  have hroleneg : ¬ (c.role ≠ some "Application" ∧ ¬ perm.roles.allows (optStr c.role)) := by
    tauto
  have hissn : (match c.iss with
      | none => none
      | some s => env.parseDateMs s) = (none : Option Int) := by
    cases hi : c.iss with
    | none => rfl
    | some s => exact hiss s hi
  refine ⟨?_, ?_, ?_⟩
  · intro e hexp he
    exact verifyT_success_aux env rid perm ip c key tmo hsec hnbf
      (by intro e2 he2; rw [hexp] at he2; injection he2 with he2; omega)
      haud hipneg hroleneg htmo hissn
  · intro hexp
    exact verifyT_success_aux env rid perm ip c key tmo hsec hnbf
      (by intro e2 he2; rw [hexp] at he2; exact Option.noConfusion he2)
      haud hipneg hroleneg htmo hissn
  · intro e hexp he
    exact verifyT_expired_aux env rid perm ip c key e hsec hnbf hexp he

/-- Fixture: a permission that only allows the custom role User. -/
def permU : PermissionMetadata := { method := "m", roles := ⟨[("User", true)]⟩ }

/-- Fixture: an http-user token claim set, not expired at `envT.now`. -/
def cTen : Claims :=
  { jti := some "j4", ist := some 0, iss := some "app", aud := some "app",
    sub := some "user:z", iat := some 0, nbf := none, exp := some 2000000000,
    oid := some "u4", email := none, name := none, ipaddr := some "5.5.5.5",
    role := some "User", scope := none }

/-- Fixture: `cTen` without an exp claim. -/
def cTenNone : Claims := { cTen with exp := none }

/-- Fixture: `cTen` with a long-passed exp claim. -/
def cTenExp : Claims := { cTen with exp := some 5 }

theorem C10_staleness_check_vacuous_on_nondate_issuer_witness :
    verifyT envT "rw" (TokenStr.jwt cTen "hs") permU none =
      .ok (mkAuthCtx "rw" (TokenStr.jwt cTen "hs") permU cTen) ∧
    verifyT envT "rw" (TokenStr.jwt cTenNone "hs") permU none =
      .ok (mkAuthCtx "rw" (TokenStr.jwt cTenNone "hs") permU cTenNone) ∧
    verifyT envT "rw" (TokenStr.jwt cTenExp "hs") permU none =
      .error (.unauthorized (expiredMsg 5 envT.now)) := by
  refine ⟨?_, ?_, ?_⟩
  · exact (C10_staleness_check_vacuous_on_nondate_issuer envT "rw" permU none cTen "hs"
      60000 (by decide) (by intro n hn; simp [cTen] at hn) (by decide)
      (Or.inr (Or.inl (by decide))) (Or.inr (by decide)) (by decide)
      (by intro s hs; rfl)).1 2000000000 (by decide) (by decide)
  · exact (C10_staleness_check_vacuous_on_nondate_issuer envT "rw" permU none cTenNone "hs"
      60000 (by decide) (by intro n hn; simp [cTenNone, cTen] at hn) (by decide)
      (Or.inr (Or.inl (by decide))) (Or.inr (by decide)) (by decide)
      (by intro s hs; rfl)).2.1 (by decide)
  · exact (C10_staleness_check_vacuous_on_nondate_issuer envT "rw" permU none cTenExp "hs"
      60000 (by decide) (by intro n hn; simp [cTenExp, cTen] at hn) (by decide)
      (Or.inr (Or.inl (by decide))) (Or.inr (by decide)) (by decide)
      (by intro s hs; rfl)).2.2 5 (by decide) (by decide)

/-! Claim C5. -/

/-- Claim C5: with a Debug permission httpAuth throws Forbidden for every
source ip other than 127.0.0.1 and ::1; for a loopback source with a
token present it runs the full verify and renew pipeline, adopting that
identity when it succeeds, and returning the synthetic debug Context
(subject user:debug, role Debug) when it fails, swallowing the error. -/
theorem C5_debug_localhost_and_swallowed_failures (env : Env) (req : HttpRequest)
    (perm : PermissionMetadata) :
    (perm.roles.allows "Debug" →
      req.sourceIp ≠ some "127.0.0.1" → req.sourceIp ≠ some "::1" →
      httpAuth env req perm = .error (.forbidden "Debug role only valid for localhost")) ∧
    (perm.roles.allows "Debug" →
      (req.sourceIp = some "127.0.0.1" ∨ req.sourceIp = some "::1") →
      (extractToken req).truthy = true →
      (∀ e, verifyRenew env req.requestId (extractToken req) perm req.sourceIp = .error e →
        httpAuth env req perm = .ok (debugContext env req perm (extractToken req))) ∧
      (∀ ctx, verifyRenew env req.requestId (extractToken req) perm req.sourceIp = .ok ctx →
        httpAuth env req perm = .ok ctx)) := by
  constructor
  · intro hdbg h1 h2
    have hc1 : ¬ (¬ perm.roles.allows "Public" ∧ ¬ perm.roles.allows "Debug") := by tauto
    unfold httpAuth
    rw [if_neg hc1, if_pos hdbg, if_pos ⟨h1, h2⟩]
  · intro hdbg hloop htok
    have hc1 : ¬ (¬ perm.roles.allows "Public" ∧ ¬ perm.roles.allows "Debug") := by tauto
    have hip : ¬ (req.sourceIp ≠ some "127.0.0.1" ∧ req.sourceIp ≠ some "::1") := by tauto
    constructor
    · intro e he
      unfold httpAuth
      rw [if_neg hc1, if_pos hdbg, if_neg hip, if_pos htok, he]
    · intro ctx hctx
      unfold httpAuth
      rw [if_neg hc1, if_pos hdbg, if_neg hip, if_pos htok, hctx]

/-- Fixture: a permission that only allows Debug. -/
def permDbg : PermissionMetadata := { method := "m", roles := ⟨[("Debug", true)]⟩ }

/-- Fixture: a loopback request carrying an undecodable token. -/
def reqDbgBad : HttpRequest :=
  { requestId := "rd1", headers := some [("Authorization", TokenStr.junk "xyz")],
    queryStringParameters := none, pathParameters := none,
    sourceIp := some "127.0.0.1" }

/-- Fixture: claims of a valid Application-role token bound to the
loopback address, far from expiry at `envT.now`. -/
def cDbg : Claims :=
  { jti := some "j5", ist := some 999999000, iss := some "app",
    aud := some "app", sub := some "user:external", iat := some 999999000,
    nbf := none, exp := some 1000036000, oid := some "u5", email := none,
    name := none, ipaddr := some "127.0.0.1", role := some "Application",
    scope := none }

/-- Fixture: a loopback request carrying the valid token of `cDbg`. -/
def reqDbgOk : HttpRequest :=
  { requestId := "rd2", headers := some [("Authorization", TokenStr.jwt cDbg "hs")],
    queryStringParameters := none, pathParameters := none,
    sourceIp := some "127.0.0.1" }

/-- Fixture: the Context the verify and renew pipeline produces for
`reqDbgOk` (renew leaves it unchanged apart from resetting the flag). -/
def ctxDbgOk : Context :=
  { mkAuthCtx "rd2" (TokenStr.jwt cDbg "hs") permDbg cDbg with
    auth := renewReset (mkAuthCtx "rd2" (TokenStr.jwt cDbg "hs") permDbg cDbg).auth }

theorem C5_debug_localhost_and_swallowed_failures_witness :
    httpAuth envT reqH permDbg = .error (.forbidden "Debug role only valid for localhost") ∧
    httpAuth envT reqDbgBad permDbg = .ok (debugContext envT reqDbgBad permDbg (TokenStr.junk "xyz")) ∧
    httpAuth envT reqDbgOk permDbg = .ok ctxDbgOk := by
  refine ⟨?_, ?_, ?_⟩
  · exact (C5_debug_localhost_and_swallowed_failures envT reqH permDbg).1
      (by decide) (by decide) (by decide)
  · have h := ((C5_debug_localhost_and_swallowed_failures envT reqDbgBad permDbg).2
      (by decide) (Or.inl (by decide)) (by decide)).1
      (.badRequest "Token: jwt malformed") (by decide)
    simpa using h
  · exact ((C5_debug_localhost_and_swallowed_failures envT reqDbgOk permDbg).2
      (by decide) (Or.inl (by decide)) (by decide)).2 ctxDbgOk (by decide)

/-! Claim C2. -/

/-- Fixture: a valid issue request whose serial timestamp (1500 ms) is
not a whole number of seconds. -/
def reqC2 : IssueRequest :=
  { tokenId := some "tid", audience := none, subject := some "user:external",
    userId := some "u1", role := some "User", scope := some "sc",
    serial := some (.num 1500), email := some "e", ipAddress := some "1.2.3.4" }

/-- Fixture: the claim set issueToken produces for `reqC2` under `envT`
(ist is 1500 ms truncated to 1 second). -/
def cC2 : Claims :=
  { jti := some "tid", ist := some 1, iss := some "app", aud := some "app",
    sub := some "user:external", iat := some 1000000000, nbf := none,
    exp := some 1000000060, oid := some "u1", email := some "e", name := none,
    ipaddr := some "1.2.3.4", role := some "User", scope := some "sc" }

/-- Claim C2 counterexample: for the valid issue request `reqC2` with
serial 1500 ms, verify of the issued token succeeds but the recovered
first-issue timestamp is 1000 ms, not the serial of the request: the ist
claim is persisted in whole seconds, so the round trip truncates the
serial to the second. -/
theorem C2_counterexample :
    reqC2.serial = some (.num 1500) ∧
    issueToken envT reqC2 = .ok (TokenStr.jwt cC2 "hs") ∧
    verifyT envT "r1" (TokenStr.jwt cC2 "hs") permU none =
      .ok (mkAuthCtx "r1" (TokenStr.jwt cC2 "hs") permU cC2) ∧
    (mkAuthCtx "r1" (TokenStr.jwt cC2 "hs") permU cC2).auth.serial = some 1000 ∧
    ((1000 : Int) = 1500 → False) := by
  refine ⟨?_, ?_, ?_, ?_, ?_⟩ <;> decide

/-- Claim C2 amended: for every valid issue request with a non-empty
token id, a nonzero numeric serial, audience equal to this application id
or absent, and a role present and true in the permission role set,
provided the resolved lifetime is at least one second and the application
id does not parse as a calendar date, verify of the issued token with a
null or matching ip succeeds and recovers tokenId, subject, userId, role,
scope, email and ipAddress equal to the request fields, and a first-issue
timestamp equal to the request serial truncated down to a whole second. -/
theorem C2_amended_roundtrip (env : Env) (req : IssueRequest) (perm : PermissionMetadata)
    (rid : String) (ip : Option String) (tok : TokenStr) (tid sub r : String)
    (sms : Int) (tmo : Nat)
    (h_tok : issueToken env req = .ok tok)
    (h_aud : req.audience = none ∨ req.audience = some env.cfg.appId)
    (h_tid : req.tokenId = some tid) (h_tid2 : ¬ tid = "")
    (h_sub : req.subject = some sub)
    (h_role : req.role = some r) (h_rs : perm.roles.allows r)
    (h_ser : req.serial = some (.num sms)) (h_s0 : ¬ sms = 0)
    (h_tmo : timeoutF env.cfg (some sub) (some env.cfg.appId) (some env.cfg.appId) = .ok tmo)
    (h_t1 : 1000 ≤ tmo)
    (h_ip : ip = none ∨ ip = req.ipAddress)
    (h_date : env.parseDateMs env.cfg.appId = none) :
    ∃ ctx, verifyT env rid tok perm ip = .ok ctx ∧
      ctx.auth.tokenId = some tid ∧ ctx.auth.subject = some sub ∧
      ctx.auth.userId = req.userId ∧ ctx.auth.role = some r ∧
      ctx.auth.scope = req.scope ∧ ctx.auth.email = req.email ∧
      ctx.auth.ipAddress = req.ipAddress ∧
      ctx.auth.serial = some (Int.fdiv sms 1000 * 1000) := by
  have haudeq : jsOrStr req.audience env.cfg.appId = env.cfg.appId := by
    rcases h_aud with h | h
    · rw [h]; rfl
    · rw [h]; simp [jsOrStr]
  unfold issueToken at h_tok
  simp only [haudeq, h_sub] at h_tok
  cases hs : secretF env.cfg (some sub) (some env.cfg.appId) (some env.cfg.appId) with
  | error e =>
    simp only [hs] at h_tok
    exact Except.noConfusion h_tok
  | ok sec =>
    simp only [hs, h_tmo, h_ser, h_tid, h_role, jsOrStr] at h_tok
    rw [if_neg h_s0, if_neg h_tid2] at h_tok
    injection h_tok with h2
    subst h2
    refine ⟨_, verifyT_success_aux env rid perm ip _ sec tmo ?_ ?_ ?_ ?_ ?_ ?_ ?_ ?_,
      ?_, ?_, ?_, ?_, ?_, ?_, ?_, ?_⟩
    · exact hs
    · intro n hn
      exact Option.noConfusion hn
    · intro e2 he2
      injection he2 with he2
      have hpos : 0 < tmo / 1000 := Nat.div_pos h_t1 (by norm_num)
      omega
    · rfl
    · rcases h_ip with h | h
      · subst h
        intro hcontra
        exact absurd hcontra.2.1 (by simp [jsTruthyS])
      · subst h
        intro hcontra
        exact hcontra.2.2 rfl
    · intro hcontra
      exact hcontra.2 h_rs
    · exact h_tmo
    · exact h_date
    · rfl
    · rfl
    · rfl
    · rfl
    · rfl
    · rfl
    · rfl
    · rfl

theorem C2_amended_roundtrip_witness :
    ∃ ctx, verifyT envT "r1" (TokenStr.jwt cC2 "hs") permU none = .ok ctx ∧
      ctx.auth.tokenId = some "tid" ∧ ctx.auth.subject = some "user:external" ∧
      ctx.auth.userId = reqC2.userId ∧ ctx.auth.role = some "User" ∧
      ctx.auth.scope = reqC2.scope ∧ ctx.auth.email = reqC2.email ∧
      ctx.auth.ipAddress = reqC2.ipAddress ∧
      ctx.auth.serial = some (Int.fdiv 1500 1000 * 1000) := by
  exact C2_amended_roundtrip envT reqC2 permU "r1" none (TokenStr.jwt cC2 "hs")
    "tid" "user:external" "User" 1500 60000
    (by decide) (Or.inl rfl) rfl (by decide) rfl rfl (by decide) rfl (by decide)
    (by decide) (by decide) (Or.inl rfl) rfl

/-! Claim C6. -/

theorem issueToken_user_aux (env : Env) (req : IssueRequest) (sub : String) (ht : Nat)
    (hsub : req.subject = some sub) (hstart : jsStartsWith sub "user:" = true)
    (hsecret : ¬ env.cfg.httpSecret = "") (hht : env.cfg.httpTimeout = some ht) :
    issueToken env req = .ok (.jwt
      { jti := some (jsOrStr req.tokenId env.uuid),
        ist := (match req.serial with
           | some (.date (some ms)) => some (Int.fdiv ms 1000)
           | some (.date none) => none
           | some (.num ms) => some (Int.fdiv (if ms = 0 then env.now else ms) 1000)
           | none => some (Int.fdiv env.now 1000)),
        iss := some env.cfg.appId,
        aud := some (jsOrStr req.audience env.cfg.appId),
        sub := req.subject,
        iat := some (Int.fdiv env.now 1000), nbf := none,
        exp := some (Int.fdiv env.now 1000 + ((ht / 1000 : Nat) : Int)),
        oid := req.userId, email := req.email, name := none,
        ipaddr := req.ipAddress, role := req.role, scope := req.scope }
      env.cfg.httpSecret) := by
  have hsec : secretF env.cfg req.subject (some env.cfg.appId)
      (some (jsOrStr req.audience env.cfg.appId)) = .ok env.cfg.httpSecret := by
    rw [hsub]
    unfold secretF
    simp only [hstart, if_pos]
    rw [if_neg hsecret]
  have htmo : timeoutF env.cfg req.subject (some env.cfg.appId)
      (some (jsOrStr req.audience env.cfg.appId)) = .ok ht := by
    rw [hsub]
    unfold timeoutF
    simp only [hstart, if_pos, hht]
  unfold issueToken
  simp only [hsec, htmo]

theorem fdiv_thousand_lower (n : Int) : n - 999 ≤ Int.fdiv n 1000 * 1000 := by
  have h1 := Int.fdiv_add_fmod n 1000
  have h2 := Int.fmod_nonneg' n (show (0 : Int) < 1000 by norm_num)
  have h3 := Int.fmod_lt_of_pos n (show (0 : Int) < 1000 by norm_num)
  omega

/-- Claim C6: renew resets the renewed flag and leaves the Auth Info
otherwise unchanged whenever the issuer is not this application, no
renewal lifetime is configured, the subject is not a REST user, more than
half of the HTTP timeout remains until expiry, or the token age (expiry
minus serial) exceeds the lifetime; otherwise, for a configured non-empty
HTTP secret and an HTTP timeout that is a whole number of at least two
seconds, it reissues a token with identical subject, role, scope and user
id, marks the Auth Info renewed and stores a token whose exp is strictly
later than the old expiry. -/
theorem C6_renew_policy (env : Env) (auth : AuthInfo) :
    (auth.issuer ≠ some env.cfg.appId → renewE env auth = .ok (renewReset auth)) ∧
    (env.cfg.httpLifetime = none → renewE env auth = .ok (renewReset auth)) ∧
    (auth.subject ≠ some "user:internal" → auth.subject ≠ some "user:external" →
      renewE env auth = .ok (renewReset auth)) ∧
    (∀ e ht, auth.expires = some e → env.cfg.httpTimeout = some ht →
      2 * (e - env.now) > (ht : Int) → renewE env auth = .ok (renewReset auth)) ∧
    (∀ e s ht lt, auth.expires = some e → auth.serial = some s →
      env.cfg.httpTimeout = some ht → env.cfg.httpLifetime = some lt →
      e - s > (lt : Int) → renewE env auth = .ok (renewReset auth)) ∧
    (∀ e s ht lt, auth.issuer = some env.cfg.appId → env.cfg.httpLifetime = some lt →
      (auth.subject = some "user:internal" ∨ auth.subject = some "user:external") →
      auth.expires = some e → auth.serial = some s → env.cfg.httpTimeout = some ht →
      ¬ 2 * (e - env.now) > (ht : Int) → ¬ e - s > (lt : Int) →
      ¬ env.cfg.httpSecret = "" → ht % 1000 = 0 → 2000 ≤ ht →
      ∃ cl : Claims,
        renewE env auth = .ok
          { renewReset auth with
            token := TokenStr.jwt cl env.cfg.httpSecret, renewed := true } ∧
        cl.sub = auth.subject ∧ cl.role = auth.role ∧ cl.scope = auth.scope ∧
        cl.oid = auth.userId ∧
        ∃ ne2, cl.exp = some ne2 ∧ e < ne2 * 1000) := by
  refine ⟨?_, ?_, ?_, ?_, ?_, ?_⟩
  · intro h
    unfold renewE
    rw [if_pos (Or.inl h)]
  · intro h
    unfold renewE
    rw [if_pos (Or.inr h)]
  · intro h1 h2
    by_cases hc1 : auth.issuer ≠ some env.cfg.appId ∨ env.cfg.httpLifetime = none
    · unfold renewE
      rw [if_pos hc1]
    · unfold renewE
      rw [if_neg hc1, if_pos ⟨h1, h2⟩]
  · intro e ht hexp hht hgt
    by_cases hc1 : auth.issuer ≠ some env.cfg.appId ∨ env.cfg.httpLifetime = none
    · unfold renewE
      rw [if_pos hc1]
    · by_cases hc2 : auth.subject ≠ some "user:internal" ∧ auth.subject ≠ some "user:external"
      · unfold renewE
        rw [if_neg hc1, if_pos hc2]
      · unfold renewE
        rw [if_neg hc1, if_neg hc2]
        simp only [hexp, hht]
        rw [if_pos (decide_eq_true hgt)]
  · intro e s ht lt hexp hser hht hlt hage
    by_cases hc1 : auth.issuer ≠ some env.cfg.appId ∨ env.cfg.httpLifetime = none
    · unfold renewE
      rw [if_pos hc1]
    · by_cases hc2 : auth.subject ≠ some "user:internal" ∧ auth.subject ≠ some "user:external"
      · unfold renewE
        rw [if_neg hc1, if_pos hc2]
      · by_cases hgt : 2 * (e - env.now) > (ht : Int)
        · unfold renewE
          rw [if_neg hc1, if_neg hc2]
          simp only [hexp, hht]
          rw [if_pos (decide_eq_true hgt)]
        · unfold renewE
          rw [if_neg hc1, if_neg hc2]
          simp only [hexp, hht]
          rw [if_neg (show ¬ decide (2 * (e - env.now) > (ht : Int)) = true from by
            simpa using hgt)]
          simp only [hser, hlt]
          rw [if_pos (decide_eq_true hage)]
  · intro e s ht lt hiss hlt hsub hexp hser hht hhalf hage hsecret hmod h2k
    have hc1 : ¬ (auth.issuer ≠ some env.cfg.appId ∨ env.cfg.httpLifetime = none) := by
      push_neg
      constructor
      · simp [hiss]
      · simp [hlt]
    have hc2 : ¬ (auth.subject ≠ some "user:internal" ∧ auth.subject ≠ some "user:external") := by
      rcases hsub with h | h <;> simp [h]
    obtain ⟨sub2, hsub2, hstart⟩ :
        ∃ sub2, auth.subject = some sub2 ∧ jsStartsWith sub2 "user:" = true := by
      rcases hsub with h | h
      · exact ⟨_, h, by decide⟩
      · exact ⟨_, h, by decide⟩
    have hissue := issueToken_user_aux env (authAsIssueRequest auth) sub2 ht hsub2 hstart
      hsecret hht
    unfold renewE
    rw [if_neg hc1, if_neg hc2]
    simp only [hexp, hht]
    rw [if_neg (show ¬ decide (2 * (e - env.now) > (ht : Int)) = true from by
      simpa using hhalf)]
    simp only [hser, hlt]
    rw [if_neg (show ¬ decide (e - s > (lt : Int)) = true from by simpa using hage)]
    simp only [hissue]
    refine ⟨_, rfl, rfl, rfl, rfl, rfl, _, rfl, ?_⟩
    have hfd := fdiv_thousand_lower env.now
    omega

/-- Fixture: a renewable http-user Auth Info at `envT.now`: issued by
"app", subject user:internal, 20 s to expiry (within the back half of the
60 s timeout), age 20 s (within the lifetime). -/
def authBase : AuthInfo :=
  { tokenId := some "t6", issuer := some "app", audience := some "app",
    subject := some "user:internal", remote := false, userId := some "u6",
    role := some "User", scope := some "sc", email := none, name := none,
    ipAddress := some "1.2.3.4", serial := some 1000000000000,
    issued := some 1000000000000, expires := some 1000000020000,
    token := TokenStr.absent, renewed := false }

/-- Fixture: `authBase` issued by a different application. -/
def authForeign : AuthInfo := { authBase with issuer := some "other" }

/-- Fixture: a configuration without renewal lifetime. -/
def cfgNoLt : Config := { cfgT with httpLifetime := none }

/-- Fixture: `envT` over `cfgNoLt`. -/
def envNoLt : Env := { envT with cfg := cfgNoLt }

/-- Fixture: `authBase` with a non-REST subject. -/
def authEvent : AuthInfo := { authBase with subject := some "event" }

/-- Fixture: `authBase` still in the front half of its lifetime. -/
def authFresh : AuthInfo := { authBase with expires := some 1000000040000 }

/-- Fixture: `authBase` older than the renewal lifetime. -/
def authOld : AuthInfo := { authBase with serial := some 996000000000 }

theorem C6_renew_policy_witness :
    renewE envT authForeign = .ok (renewReset authForeign) ∧
    renewE envNoLt authBase = .ok (renewReset authBase) ∧
    renewE envT authEvent = .ok (renewReset authEvent) ∧
    renewE envT authFresh = .ok (renewReset authFresh) ∧
    renewE envT authOld = .ok (renewReset authOld) ∧
    (∃ cl : Claims,
      renewE envT authBase = .ok
        { renewReset authBase with
          token := TokenStr.jwt cl cfgT.httpSecret, renewed := true } ∧
      cl.sub = authBase.subject ∧ cl.role = authBase.role ∧
      cl.scope = authBase.scope ∧ cl.oid = authBase.userId ∧
      ∃ ne2, cl.exp = some ne2 ∧ (1000000020000 : Int) < ne2 * 1000) := by
  refine ⟨?_, ?_, ?_, ?_, ?_, ?_⟩
  · exact (C6_renew_policy envT authForeign).1 (by decide)
  · exact (C6_renew_policy envNoLt authBase).2.1 rfl
  · exact (C6_renew_policy envT authEvent).2.2.1 (by decide) (by decide)
  · exact (C6_renew_policy envT authFresh).2.2.2.1 1000000040000 60000 rfl rfl (by decide)
  · exact (C6_renew_policy envT authOld).2.2.2.2.1 1000000020000 996000000000 60000
      3600000 rfl rfl rfl rfl (by decide)
  · exact (C6_renew_policy envT authBase).2.2.2.2.2 1000000020000 1000000000000 60000
      3600000 rfl rfl (Or.inl rfl) rfl rfl rfl (by decide) (by decide) (by decide)
      (by decide) (by decide)

end TyxCore
